import Mathlib

/-!
# wtf: widget orchestration core of `src/wtf.go`

A shallow embedding of the functions of `src/wtf.go` (package `main`):
`addToGrid`, `buildGrid`, `keyboardIntercept`, `refreshAllWidgets`, the
event loop of `watchForConfigChanges`, `makeWidgets`, `loadConfig` and `main`.

The package-level variables (`Config`, `FocusTracker`, `Widgets`, `pages`,
`mainPage`) become the fields of `State`, threaded explicitly.  A `go f(x)`
statement appends an entry to `State.started`.  Code the file calls but does not
contain (the widget constructors, `wtf.FocusTracker`'s methods, the
configuration accessors) is a field of `Env` and stays arbitrary in the
theorems.
-/

namespace Wtf

/-! ## tcell: key events

The four key constants carry the values the tcell library gives them; the
proofs use only that they are pairwise different, as the `switch` of
`keyboardIntercept` requires of its case constants. -/

/-- The type `tcell.Key` (an `int16`). -/
abbrev Key := Int

/-- The constant `tcell.KeyCtrlR`. -/
def KeyCtrlR : Key := 18

/-- The constant `tcell.KeyTab`. -/
def KeyTab : Key := 9

/-- The constant `tcell.KeyBacktab`. -/
def KeyBacktab : Key := 278

/-- The constant `tcell.KeyEsc`. -/
def KeyEsc : Key := 27

/-- A `tcell.EventKey`: the key, the rune and the modifier mask it carries. -/
structure EventKey where
  key : Key
  ch : Nat
  mod : Nat
deriving DecidableEq, Repr

/-- The method `event.Key()`. -/
def EventKey.Key (event : EventKey) : Key := event.key

/-! ## Widgets -/

/-- A value of the interface `wtf.Wtfable`, as far as `src/wtf.go` uses it:
the results of `Disabled()`, `TextView()`, `Top()`, `Left()`, `Height()`,
`Width()`.  `ptr` is the address of the widget object behind the interface
value and `TextView` the address of its `tview.TextView`. -/
structure Wtfable where
  ptr : Nat
  Disabled : Bool
  TextView : Nat
  Top : Int
  Left : Int
  Height : Int
  Width : Int
deriving DecidableEq, Repr

/-- The widget packages whose `NewWidget` constructor `makeWidgets` calls,
in the order of the slice literal. -/
inductive Module where
  | bamboohr | clocks | cmdrunner | gcal | git | github | jira | newrelic
  | opsgenie | power | security | status | system | textfile | todo | weather
deriving DecidableEq, Repr

/-! ## tview: grid and pages -/

/-- One `AddItem` call on a `tview.Grid`: the primitive (here always a text
view, by address) and the seven further arguments. -/
structure GridItem where
  Item : Nat
  Row : Int
  Column : Int
  Height : Int
  Width : Int
  MinGridHeight : Int
  MinGridWidth : Int
  Focus : Bool
deriving DecidableEq, Repr

/-- A `tview.Grid`, as the record of what has been set on it: the column and
row sizes, the border flag, and the items added, oldest first. -/
structure Grid where
  columns : List Int
  rows : List Int
  border : Bool
  items : List GridItem
deriving DecidableEq, Repr

/-- The constructor `tview.NewGrid()`. -/
def NewGrid : Grid :=
  { columns := [], rows := [], border := false, items := [] }

/-- The method `grid.SetColumns(columns...)`. -/
def Grid.SetColumns (grid : Grid) (columns : List Int) : Grid :=
  { grid with columns := columns }

/-- The method `grid.SetRows(rows...)`. -/
def Grid.SetRows (grid : Grid) (rows : List Int) : Grid :=
  { grid with rows := rows }

/-- The method `grid.SetBorder(show)`. -/
def Grid.SetBorder (grid : Grid) (border : Bool) : Grid :=
  { grid with border := border }

/-- The method `grid.AddItem(p, row, column, rowSpan, colSpan, minGridHeight,
minGridWidth, focus)`: the item is appended to the grid's items. -/
def Grid.AddItem (grid : Grid) (p : Nat) (row column rowSpan colSpan
    minGridHeight minGridWidth : Int) (focus : Bool) : Grid :=
  { grid with items := grid.items ++
      [{ Item := p, Row := row, Column := column, Height := rowSpan, Width := colSpan,
         MinGridHeight := minGridHeight, MinGridWidth := minGridWidth, Focus := focus }] }

/-- One `pages.AddPage(name, item, resize, visible)` call. -/
structure Page where
  Name : String
  Item : Grid
  Resize : Bool
  Visible : Bool
deriving DecidableEq, Repr

/-! ## Program state -/

/-- The struct `wtf.FocusTracker` with the three fields `main` fills in.
`App` is the address of the application object. -/
structure FocusTracker where
  App : Nat
  Idx : Int
  Widgets : List Wtfable
deriving DecidableEq, Repr

/-- A goroutine started by a `go` statement of `src/wtf.go`. -/
inductive Goroutine where
  | Schedule (module : Wtfable)
  | Refresh (widget : Wtfable)
  | redrawApp
  | watchForConfigChanges
deriving DecidableEq, Repr

/-- The package-level variables of `src/wtf.go` and what the program has
started.

* `Config`, `FocusTracker`, `Widgets`, `pages`, `mainPage`: the variables of
  that name; a nil pointer is `none`, and `pages` is the list of `AddPage`
  calls the pages object has received, oldest first.
* `pkgConfig`: the `Config` variables of the widget packages and of package
  `wtf`, which `makeWidgets` assigns all together.
* `started`: the goroutines started so far, oldest first.  No statement of
  `src/wtf.go` stops a goroutine it has started.
* `allocated`: how many widget objects have been constructed so far; the next
  constructor call yields the object with this address.
* `running`: false once the process has been ended (`log.Fatalln`, `os.Exit`,
  a panic nothing recovers from).
-/
structure State (Cfg : Type) where
  Config : Option Cfg
  pkgConfig : Option Cfg
  FocusTracker : FocusTracker
  Widgets : List Wtfable
  pages : List Page
  mainPage : Option Grid
  started : List Goroutine
  allocated : Nat
  running : Bool

/-- The code `src/wtf.go` calls and does not contain.

* `gridInts c key`: `wtf.ToInts(Config.UList(key))` when `Config` points to
  the configuration `c`.  On a nil `Config` the call `Config.UList` panics with
  a nil pointer dereference; that case is in `buildGrid`.
* `NewWidget m c a`: the widget that package `m`'s `NewWidget` returns when the
  package's `Config` is `c` and `a` objects have been constructed before it.
* `Next`, `Prev`, `None`: the methods of `wtf.FocusTracker` of those names, as
  functions of `wtf.Config` and the tracker they are called on.
-/
structure Env (Cfg : Type) where
  gridInts : Cfg → String → List Int
  NewWidget : Module → Option Cfg → Nat → Wtfable
  Next : Option Cfg → FocusTracker → FocusTracker
  Prev : Option Cfg → FocusTracker → FocusTracker
  None : Option Cfg → FocusTracker → FocusTracker

/-- What a call `wtf.LoadConfigFile(path)` does, as `loadConfig` can observe
it.  The function's only result is a `*config.Config`, so the call either
hands back a pointer (possibly nil) or does not come back because the process
was ended inside it. -/
inductive LoadOutcome (Cfg : Type) where
  | returned (cfg : Option Cfg)
  | exited

/-- What the `select` of the watcher goroutine receives: a write event (with
what the following `wtf.LoadConfigFile` call will do), an error, or the
closing of the watcher. -/
inductive WatchMsg (Cfg : Type) where
  | Event (load : LoadOutcome Cfg)
  | Error
  | Closed

variable {Cfg : Type}

/-- The statement `go f(x)`. -/
def go (g : Goroutine) (st : State Cfg) : State Cfg :=
  { st with started := st.started ++ [g] }

/-! ## Functions of `src/wtf.go` -/

/-- Function `addToGrid` (lines 36-51). -/
def addToGrid (grid : Grid) (widget : Wtfable) : Grid :=
  if widget.Disabled then
    grid
  else
    grid.AddItem widget.TextView widget.Top widget.Left widget.Height widget.Width 0 0 false

/-- The body of the `for` loop of `buildGrid` (lines 60-63). -/
def buildGridStep (acc : Grid × State Cfg) (module : Wtfable) : Grid × State Cfg :=
  (addToGrid acc.1 module, go (Goroutine.Schedule module) acc.2)

/-- Function `buildGrid` (lines 54-66): the grid it returns and the state
after the call, or `none` when it panics.  With a nil `Config` the call
`Config.UList` of line 56 dereferences nil and panics, before the loop has
started anything. -/
def buildGrid (env : Env Cfg) (modules : List Wtfable) (st : State Cfg) :
    Option (Grid × State Cfg) :=
  let grid := NewGrid
  match st.Config with
  | none => none
  | some c =>
    let grid := grid.SetColumns (env.gridInts c "wtf.grid.columns")
    let grid := grid.SetRows (env.gridInts c "wtf.grid.rows")
    let grid := grid.SetBorder false
    some (modules.foldl buildGridStep (grid, st))

/-- Function `refreshAllWidgets` (lines 104-108). -/
def refreshAllWidgets (st : State Cfg) : State Cfg :=
  st.Widgets.foldl (fun s widget => go (Goroutine.Refresh widget) s) st

/-- Function `keyboardIntercept` (lines 68-83): the returned pointer
(`none` is nil) and the state after the call. -/
def keyboardIntercept (env : Env Cfg) (event : EventKey) (st : State Cfg) :
    Option EventKey × State Cfg :=
  if event.Key = KeyCtrlR then
    (some event, refreshAllWidgets st)
  else if event.Key = KeyTab then
    (some event, { st with FocusTracker := env.Next st.pkgConfig st.FocusTracker })
  else if event.Key = KeyBacktab then
    (some event, { st with FocusTracker := env.Prev st.pkgConfig st.FocusTracker })
  else if event.Key = KeyEsc then
    (some event, { st with FocusTracker := env.None st.pkgConfig st.FocusTracker })
  else
    (some event, st)

/-- Function `makeWidgets` (lines 157-194): every package's `Config` is set to
`Config`, then `Widgets` is assigned the sixteen newly constructed widgets. -/
def makeWidgets (env : Env Cfg) (st : State Cfg) : State Cfg :=
  let st := { st with pkgConfig := st.Config }
  let c := st.pkgConfig
  let a := st.allocated
  { st with
    Widgets := [
      env.NewWidget Module.bamboohr c a,
      env.NewWidget Module.clocks c (a + 1),
      env.NewWidget Module.cmdrunner c (a + 2),
      env.NewWidget Module.gcal c (a + 3),
      env.NewWidget Module.git c (a + 4),
      env.NewWidget Module.github c (a + 5),
      env.NewWidget Module.jira c (a + 6),
      env.NewWidget Module.newrelic c (a + 7),
      env.NewWidget Module.opsgenie c (a + 8),
      env.NewWidget Module.power c (a + 9),
      env.NewWidget Module.security c (a + 10),
      env.NewWidget Module.status c (a + 11),
      env.NewWidget Module.system c (a + 12),
      env.NewWidget Module.textfile c (a + 13),
      env.NewWidget Module.todo c (a + 14),
      env.NewWidget Module.weather c (a + 15)],
    allocated := a + 16 }

/-- Function `loadConfig` (lines 196-198), given what the
`wtf.LoadConfigFile` call does. -/
def loadConfig (load : LoadOutcome Cfg) (st : State Cfg) : State Cfg :=
  match load with
  | LoadOutcome.returned cfg => { st with Config := cfg }
  | LoadOutcome.exited => { st with running := false }

/-- The method `pages.AddPage(name, item, resize, visible)`. -/
def AddPage (name : String) (item : Grid) (resize visible : Bool) (st : State Cfg) :
    State Cfg :=
  { st with pages := st.pages ++
      [{ Name := name, Item := item, Resize := resize, Visible := visible }] }

/-- The `case <-watch.Event:` branch of the watcher goroutine (lines 119-123).
When the process is ended inside `loadConfig`, nothing after it runs.  When
`buildGrid` panics, the panic is not recovered: the process ends before
`mainPage` is assigned. -/
def reload (env : Env Cfg) (load : LoadOutcome Cfg) (st : State Cfg) : State Cfg :=
  match load with
  | LoadOutcome.exited => loadConfig LoadOutcome.exited st
  | LoadOutcome.returned cfg =>
    let st := loadConfig (LoadOutcome.returned cfg) st
    let st := makeWidgets env st
    match buildGrid env st.Widgets st with
    | none => { st with running := false }
    | some built =>
      let st := { built.2 with mainPage := some built.1 }
      AddPage "grid" built.1 true true st

/-- One round of the `for`/`select` loop of the watcher goroutine
(lines 117-129). -/
def watchStep (env : Env Cfg) (msg : WatchMsg Cfg) (st : State Cfg) : State Cfg :=
  match msg with
  | WatchMsg.Event load => reload env load st
  | WatchMsg.Error => { st with running := false }
  | WatchMsg.Closed => st

/-- The package-level variables before `main` runs: Go's zero values. -/
def zeroState : State Cfg :=
  { Config := none, pkgConfig := none,
    FocusTracker := { App := 0, Idx := 0, Widgets := [] },
    Widgets := [], pages := [], mainPage := none,
    started := [], allocated := 0, running := true }

/-- Function `main` (lines 200-258) up to the call of `Run`, when every
call before `buildGrid` returns and `wtf.LoadConfigFile` hands back `cfg`: the
state in which the application starts dispatching events.  When `buildGrid`
panics the process ends there.  The application object has address 0. -/
def main (env : Env Cfg) (cfg : Option Cfg) : State Cfg :=
  let st := loadConfig (LoadOutcome.returned cfg) zeroState
  let app := 0
  let st := { st with pages := [] }
  let st := makeWidgets env st
  let st := { st with FocusTracker := { App := app, Idx := -1, Widgets := st.Widgets } }
  let st := go Goroutine.redrawApp st
  let st := go Goroutine.watchForConfigChanges st
  match buildGrid env st.Widgets st with
  | none => { st with running := false }
  | some built =>
    let st := { built.2 with mainPage := some built.1 }
    AddPage "grid" built.1 true true st

/-- The state after `main`'s startup under the configuration `cfg` followed by
one write event per element of `loads`, each of whose `wtf.LoadConfigFile`
calls hands back a pointer to the element. -/
def afterReloads (env : Env Cfg) (cfg : Cfg) (loads : List Cfg) : State Cfg :=
  loads.foldl (fun st c => reload env (LoadOutcome.returned (some c)) st) (main env (some cfg))

/-! ## Observations on a state -/

/-- The widget a goroutine runs `wtf.Schedule` for, if it is one. -/
def Goroutine.scheduled : Goroutine → Option Wtfable
  | Goroutine.Schedule module => some module
  | _ => none

/-- The widget a goroutine runs `Refresh()` for, if it is one. -/
def Goroutine.refreshed : Goroutine → Option Wtfable
  | Goroutine.Refresh widget => some widget
  | _ => none

/-- Modelled from the spec: `wtf.Schedule`, which `src/wtf.go` starts and
does not contain, is "one independent repeating refresh cycle" of a widget
with a positive interval; it does not end by itself.  The running refresh
cycles of a state are therefore those of the `wtf.Schedule` goroutines
started so far, one entry per goroutine, oldest first. -/
def cycles (st : State Cfg) : List Wtfable :=
  st.started.filterMap Goroutine.scheduled

/-- The grid item `addToGrid` adds for an enabled widget. -/
def itemOf (widget : Wtfable) : GridItem :=
  { Item := widget.TextView, Row := widget.Top, Column := widget.Left,
    Height := widget.Height, Width := widget.Width,
    MinGridHeight := 0, MinGridWidth := 0, Focus := false }

/-- The enabled subsequence of a widget list. -/
def enabled (widgets : List Wtfable) : List Wtfable :=
  widgets.filter (fun w => !w.Disabled)

/-! ## A concrete configuration and environment

Used to evaluate the functions above on explicit inputs. -/

/-- A configuration document reduced to what is read from it: the grid's
column and row sizes and the modules it switches off. -/
structure Settings where
  columns : List Int
  rows : List Int
  off : List Module
deriving DecidableEq, Repr

/-- The position of a module's widget in the slice `makeWidgets` builds. -/
def Module.index : Module → Nat
  | Module.bamboohr => 0 | Module.clocks => 1 | Module.cmdrunner => 2 | Module.gcal => 3
  | Module.git => 4 | Module.github => 5 | Module.jira => 6 | Module.newrelic => 7
  | Module.opsgenie => 8 | Module.power => 9 | Module.security => 10 | Module.status => 11
  | Module.system => 12 | Module.textfile => 13 | Module.todo => 14 | Module.weather => 15

/-- Modelled from the spec: the transition `Next` of `wtf.FocusTracker`, which
`src/wtf.go` calls and does not contain: `NoFocus -> FocusedAt(0)`,
`FocusedAt(i) -> FocusedAt((i+1) mod N)`, no-op if `N = 0`, with `N` the
number of enabled widgets of the tracker. -/
def specNext (tracker : FocusTracker) : FocusTracker :=
  let n : Int := (enabled tracker.Widgets).length
  if n = 0 then tracker
  else if tracker.Idx = -1 then { tracker with Idx := 0 }
  else { tracker with Idx := (tracker.Idx + 1) % n }

/-- Modelled from the spec: the transition `Prev` of `wtf.FocusTracker`, which
`src/wtf.go` calls and does not contain: `NoFocus -> FocusedAt(N-1)`,
`FocusedAt(i) -> FocusedAt((i-1+N) mod N)`, no-op if `N = 0`. -/
def specPrev (tracker : FocusTracker) : FocusTracker :=
  let n : Int := (enabled tracker.Widgets).length
  if n = 0 then tracker
  else if tracker.Idx = -1 then { tracker with Idx := n - 1 }
  else { tracker with Idx := (tracker.Idx - 1 + n) % n }

/-- Modelled from the spec: the transition `None` of `wtf.FocusTracker`, which
`src/wtf.go` calls and does not contain: any state `-> NoFocus`. -/
def specNone (tracker : FocusTracker) : FocusTracker :=
  { tracker with Idx := -1 }

/-- An environment over `Settings`: a widget is disabled when its module is
switched off (or the configuration pointer is nil), it is the object with the next
free address and owns the text view of the same number, and it occupies one
cell in the row of its module's number; the focus operations are the spec's. -/
def sampleEnv : Env Settings :=
  { gridInts := fun s key => if key = "wtf.grid.columns" then s.columns else s.rows,
    NewWidget := fun m c a =>
      { ptr := a,
        Disabled := match c with
          | none => true
          | some s => decide (m ∈ s.off),
        TextView := a, Top := m.index, Left := 0, Height := 1, Width := 1 },
    Next := fun _ tracker => specNext tracker,
    Prev := fun _ tracker => specPrev tracker,
    None := fun _ tracker => specNone tracker }

/-- A configuration with every module switched on. -/
def allOn : Settings :=
  { columns := [40, 40], rows := [10, 10, 10, 10, 10, 10, 10, 10], off := [] }

/-- A configuration that switches the `weather` module off. -/
def weatherOff : Settings :=
  { columns := [40, 40], rows := [10, 10, 10, 10, 10, 10, 10, 10], off := [Module.weather] }

/-- A disabled widget. -/
def offWidget : Wtfable :=
  { ptr := 0, Disabled := true, TextView := 0, Top := 0, Left := 0, Height := 1, Width := 1 }

/-- An enabled widget. -/
def onWidget : Wtfable :=
  { ptr := 1, Disabled := false, TextView := 1, Top := 1, Left := 0, Height := 1, Width := 1 }

/-- A key event for the Tab key. -/
def tabEvent : EventKey := { key := KeyTab, ch := 0, mod := 0 }

/-- A key event for the letter `q` (`tcell.KeyRune` is 256). -/
def runeEvent : EventKey := { key := 256, ch := 113, mod := 0 }

end Wtf

namespace Wtf

variable {Cfg : Type}

/-! ## Lemmas on the loops -/

theorem addToGrid_items (grid : Grid) (widget : Wtfable) :
    (addToGrid grid widget).items = grid.items ++ (enabled [widget]).map itemOf := by
  cases h : widget.Disabled <;> simp [addToGrid, enabled, itemOf, Grid.AddItem, h]

theorem foldl_buildGridStep_items (modules : List Wtfable) (acc : Grid × State Cfg) :
    (modules.foldl buildGridStep acc).1.items = acc.1.items ++ (enabled modules).map itemOf := by
  induction modules generalizing acc with
  | nil => simp [enabled]
  | cons m ms ih =>
    rw [List.foldl_cons, ih]
    simp only [buildGridStep, addToGrid_items, List.append_assoc]
    congr 1
    simp only [enabled, ← List.map_append, ← List.filter_append, List.singleton_append]

theorem foldl_buildGridStep_grid (modules : List Wtfable) (acc : Grid × State Cfg) :
    (modules.foldl buildGridStep acc).1 =
      { acc.1 with items := acc.1.items ++ (enabled modules).map itemOf } := by
  induction modules generalizing acc with
  | nil => simp [enabled]
  | cons m ms ih =>
    rw [List.foldl_cons, ih]
    cases h : m.Disabled <;>
      simp [buildGridStep, addToGrid, Grid.AddItem, enabled, itemOf, h]

theorem foldl_buildGridStep_state (modules : List Wtfable) (acc : Grid × State Cfg) :
    (modules.foldl buildGridStep acc).2 =
      { acc.2 with started := acc.2.started ++ modules.map Goroutine.Schedule } := by
  induction modules generalizing acc with
  | nil => simp
  | cons m ms ih =>
    rw [List.foldl_cons, ih]
    simp [buildGridStep, go]

theorem buildGrid_nil (env : Env Cfg) (modules : List Wtfable) (st : State Cfg)
    (h : st.Config = none) : buildGrid env modules st = none := by
  simp [buildGrid, h]

theorem buildGrid_some (env : Env Cfg) (modules : List Wtfable) (st : State Cfg) (c : Cfg)
    (h : st.Config = some c) :
    buildGrid env modules st =
      some ({ columns := env.gridInts c "wtf.grid.columns",
              rows := env.gridInts c "wtf.grid.rows",
              border := false,
              items := (enabled modules).map itemOf },
            { st with started := st.started ++ modules.map Goroutine.Schedule }) := by
  unfold buildGrid
  rw [h]
  refine congrArg some (Prod.ext ?_ ?_)
  · simp [foldl_buildGridStep_grid, NewGrid, Grid.SetColumns, Grid.SetRows, Grid.SetBorder]
  · rw [foldl_buildGridStep_state]
    simp only [h]

theorem foldl_go_Refresh (widgets : List Wtfable) (st : State Cfg) :
    widgets.foldl (fun s widget => go (Goroutine.Refresh widget) s) st =
      { st with started := st.started ++ widgets.map Goroutine.Refresh } := by
  induction widgets generalizing st with
  | nil => simp
  | cons w ws ih =>
    rw [List.foldl_cons, ih]
    simp [go]

theorem filterMap_scheduled_map (modules : List Wtfable) :
    (modules.map Goroutine.Schedule).filterMap Goroutine.scheduled = modules := by
  induction modules with
  | nil => rfl
  | cons m ms ih => simp [Goroutine.scheduled, ih]

theorem filterMap_refreshed_map (widgets : List Wtfable) :
    (widgets.map Goroutine.Refresh).filterMap Goroutine.refreshed = widgets := by
  induction widgets with
  | nil => rfl
  | cons w ws ih => simp [Goroutine.refreshed, ih]

theorem reload_returned (env : Env Cfg) (c : Cfg) (st : State Cfg) :
    reload env (LoadOutcome.returned (some c)) st =
      { makeWidgets env { st with Config := some c } with
        mainPage := some
          { columns := env.gridInts c "wtf.grid.columns",
            rows := env.gridInts c "wtf.grid.rows",
            border := false,
            items := (enabled (makeWidgets env { st with Config := some c }).Widgets).map
              itemOf },
        started := st.started ++
          (makeWidgets env { st with Config := some c }).Widgets.map Goroutine.Schedule,
        pages := st.pages ++
          [{ Name := "grid",
             Item :=
               { columns := env.gridInts c "wtf.grid.columns",
                 rows := env.gridInts c "wtf.grid.rows",
                 border := false,
                 items := (enabled (makeWidgets env { st with Config := some c }).Widgets).map
                   itemOf },
             Resize := true, Visible := true }] } := by
  simp only [reload, loadConfig]
  rw [buildGrid_some env _ _ c rfl]
  rfl

theorem reload_nil (env : Env Cfg) (st : State Cfg) :
    reload env (LoadOutcome.returned none) st =
      { makeWidgets env { st with Config := none } with running := false } := by
  simp only [reload, loadConfig]
  rw [buildGrid_nil env _ _ rfl]

theorem cycles_reload (env : Env Cfg) (c : Cfg) (st : State Cfg) :
    cycles (reload env (LoadOutcome.returned (some c)) st) =
      cycles st ++ (reload env (LoadOutcome.returned (some c)) st).Widgets := by
  rw [reload_returned]
  simp only [cycles, List.filterMap_append, filterMap_scheduled_map]

theorem main_eq (env : Env Cfg) (c : Cfg) :
    main env (some c) =
      { makeWidgets env { (zeroState : State Cfg) with Config := some c } with
        FocusTracker :=
          { App := 0, Idx := -1,
            Widgets :=
              (makeWidgets env { (zeroState : State Cfg) with Config := some c }).Widgets },
        mainPage := some
          { columns := env.gridInts c "wtf.grid.columns",
            rows := env.gridInts c "wtf.grid.rows",
            border := false,
            items := (enabled
              (makeWidgets env { (zeroState : State Cfg) with Config := some c }).Widgets).map
                itemOf },
        started := [Goroutine.redrawApp, Goroutine.watchForConfigChanges] ++
          (makeWidgets env { (zeroState : State Cfg) with Config := some c }).Widgets.map
            Goroutine.Schedule,
        pages :=
          [{ Name := "grid",
             Item :=
               { columns := env.gridInts c "wtf.grid.columns",
                 rows := env.gridInts c "wtf.grid.rows",
                 border := false,
                 items := (enabled
                   (makeWidgets env
                     { (zeroState : State Cfg) with Config := some c }).Widgets).map itemOf },
             Resize := true, Visible := true }] } := by
  simp only [main, loadConfig]
  rw [buildGrid_some env _ _ c rfl]
  rfl

theorem main_nil (env : Env Cfg) :
    main env none =
      { makeWidgets env (zeroState : State Cfg) with
        FocusTracker :=
          { App := 0, Idx := -1, Widgets := (makeWidgets env (zeroState : State Cfg)).Widgets },
        started := [Goroutine.redrawApp, Goroutine.watchForConfigChanges],
        running := false } := by
  simp only [main, loadConfig]
  rw [buildGrid_nil env _ _ rfl]
  rfl

theorem cycles_main (env : Env Cfg) (c : Cfg) :
    cycles (main env (some c)) = (main env (some c)).Widgets := by
  rw [main_eq]
  simp only [cycles, List.filterMap_append, filterMap_scheduled_map]
  rfl

theorem main_Widgets_length (env : Env Cfg) (c : Cfg) :
    (main env (some c)).Widgets.length = 16 := by
  rw [main_eq]
  rfl

theorem reload_Widgets_length (env : Env Cfg) (c : Cfg) (st : State Cfg) :
    (reload env (LoadOutcome.returned (some c)) st).Widgets.length = 16 := by
  rw [reload_returned]
  rfl

theorem afterReloads_snoc (env : Env Cfg) (cfg : Cfg) (loads : List Cfg) (c : Cfg) :
    afterReloads env cfg (loads ++ [c]) =
      reload env (LoadOutcome.returned (some c)) (afterReloads env cfg loads) := by
  simp [afterReloads, List.foldl_append]

theorem cycles_afterReloads_length (env : Env Cfg) (cfg : Cfg) (loads : List Cfg) :
    (cycles (afterReloads env cfg loads)).length = 16 * (loads.length + 1) := by
  induction loads using List.reverseRecOn with
  | nil => simp [afterReloads, cycles_main, main_Widgets_length]
  | append_singleton ls c ih =>
    rw [afterReloads_snoc, cycles_reload, List.length_append, ih, reload_Widgets_length]
    simp only [List.length_append, List.length_singleton]
    ring

theorem afterReloads_running (env : Env Cfg) (cfg : Cfg) (loads : List Cfg) :
    (afterReloads env cfg loads).running = true := by
  induction loads using List.reverseRecOn with
  | nil => simp only [afterReloads, List.foldl_nil, main_eq]; rfl
  | append_singleton ls c ih =>
    rw [afterReloads_snoc, reload_returned]
    exact ih

/-! ## The grid builder -/

/-- C1: for every list of modules and every state, the grid `buildGrid`
returns has as its items exactly the items of the modules whose `Disabled()`
is false, in the order of the list, one per such module, each made of the
module's own `TextView()` placed at `(Top(), Left(), Height(), Width())`; a
module whose `Disabled()` is true contributes no item.  `buildGrid` returns
such a grid whenever `Config` is not nil; with a nil `Config` it panics and
returns no grid. -/
theorem buildGrid_items_enabled (env : Env Cfg) (modules : List Wtfable) (st : State Cfg) :
    (buildGrid env modules st).map (fun built => built.1.items) =
      st.Config.map (fun _ =>
        (modules.filter (fun m => !m.Disabled)).map (fun m =>
          { Item := m.TextView, Row := m.Top, Column := m.Left, Height := m.Height,
            Width := m.Width, MinGridHeight := 0, MinGridWidth := 0, Focus := false })) := by
  cases h : st.Config with
  | none => rw [buildGrid_nil env modules st h]; rfl
  | some c => rw [buildGrid_some env modules st c h]; rfl

/-- C2 (as stated, refuted): under the configuration `allOn`, `buildGrid`
called on the single disabled widget `offWidget` returns and has started a
`wtf.Schedule` goroutine for it, so the cycles it starts are not those of the
enabled modules (of which there are none).  Likewise, after startup under a
configuration that switches `weather` off, the disabled weather widget has a
refresh cycle. -/
theorem buildGrid_schedules_disabled :
    offWidget.Disabled = true ∧
    (buildGrid sampleEnv [offWidget]
      { (zeroState : State Settings) with Config := some allOn }).map
        (fun built => built.2.started) = some [Goroutine.Schedule offWidget] ∧
    (buildGrid sampleEnv [offWidget]
      { (zeroState : State Settings) with Config := some allOn }).map
        (fun built => cycles built.2) ≠ some (enabled [offWidget]) ∧
    (sampleEnv.NewWidget Module.weather (some weatherOff) 15).Disabled = true ∧
    sampleEnv.NewWidget Module.weather (some weatherOff) 15 ∈
      (main sampleEnv (some weatherOff)).Widgets ∧
    sampleEnv.NewWidget Module.weather (some weatherOff) 15 ∈
      cycles (main sampleEnv (some weatherOff)) := by
  decide

/-- C2 (amended): for every list of modules and every state with a non-nil
`Config`, `buildGrid` returns having started exactly one `wtf.Schedule`
goroutine for every module of the list, in the order of the list, whether
`Disabled()` is true or false, having started nothing else and having left the
rest of the state as it was.  With a nil `Config` it panics before the loop
and starts nothing. -/
theorem buildGrid_schedules_every_module (env : Env Cfg) (modules : List Wtfable)
    (st : State Cfg) :
    (buildGrid env modules st).map (fun built => built.2) =
      st.Config.map (fun _ =>
        { st with started := st.started ++ modules.map Goroutine.Schedule }) ∧
    (buildGrid env modules st).map (fun built => cycles built.2) =
      st.Config.map (fun _ => cycles st ++ modules) := by
  cases h : st.Config with
  | none => rw [buildGrid_nil env modules st h]; exact ⟨rfl, rfl⟩
  | some c =>
    rw [buildGrid_some env modules st c h]
    refine ⟨?_, ?_⟩
    · simp only [Option.map_some', h]
    · simp only [Option.map_some', cycles, List.filterMap_append, filterMap_scheduled_map]

/-! ## Manual refresh and the keyboard interceptor -/

/-- C7: for every Widget Set held in `Widgets`, the `Refresh()` goroutines one
call of `refreshAllWidgets` starts for enabled widgets are exactly the enabled
widgets of the set, in order, one goroutine per widget; the call consults
nothing but `Widgets` (the state carries no timer), so this holds in every
state. -/
theorem refreshAllWidgets_refreshes_enabled (st : State Cfg) :
    enabled (((refreshAllWidgets st).started.drop st.started.length).filterMap
      Goroutine.refreshed) = enabled st.Widgets := by
  simp only [refreshAllWidgets, foldl_go_Refresh, List.drop_left, filterMap_refreshed_map]

/-- C10: for every Widget Set held in `Widgets`, `refreshAllWidgets` starts
one `Refresh()` goroutine per element of `Widgets`, in order, `len(Widgets)`
in all, without looking at `Disabled()`, and changes nothing else; a disabled
widget is refreshed like an enabled one. -/
theorem refreshAllWidgets_refreshes_all (st : State Cfg) :
    refreshAllWidgets st =
      { st with started := st.started ++ st.Widgets.map Goroutine.Refresh } ∧
    (refreshAllWidgets st).started.length = st.started.length + st.Widgets.length := by
  simp only [refreshAllWidgets, foldl_go_Refresh, List.length_append, List.length_map,
    and_self]

/-- C8: for every key event, `keyboardIntercept` performs exactly the operation
its key is mapped to: Ctrl-R runs `refreshAllWidgets`, Tab runs
`FocusTracker.Next`, Backtab runs `FocusTracker.Prev`, Esc runs
`FocusTracker.None`, each on an otherwise unchanged state; for every other key
the state is left as it is and the event is returned unchanged. -/
theorem keyboardIntercept_dispatch (env : Env Cfg) (event : EventKey) (st : State Cfg) :
    (event.Key = KeyCtrlR →
      keyboardIntercept env event st = (some event, refreshAllWidgets st)) ∧
    (event.Key = KeyTab →
      keyboardIntercept env event st =
        (some event, { st with FocusTracker := env.Next st.pkgConfig st.FocusTracker })) ∧
    (event.Key = KeyBacktab →
      keyboardIntercept env event st =
        (some event, { st with FocusTracker := env.Prev st.pkgConfig st.FocusTracker })) ∧
    (event.Key = KeyEsc →
      keyboardIntercept env event st =
        (some event, { st with FocusTracker := env.None st.pkgConfig st.FocusTracker })) ∧
    (event.Key ≠ KeyCtrlR → event.Key ≠ KeyTab → event.Key ≠ KeyBacktab →
      event.Key ≠ KeyEsc → keyboardIntercept env event st = (some event, st)) := by
  refine ⟨?_, ?_, ?_, ?_, ?_⟩
  · intro h
    simp [keyboardIntercept, h]
  · intro h
    simp [keyboardIntercept, h, KeyTab, KeyCtrlR]
  · intro h
    simp [keyboardIntercept, h, KeyTab, KeyCtrlR, KeyBacktab]
  · intro h
    simp [keyboardIntercept, h, KeyTab, KeyCtrlR, KeyBacktab, KeyEsc]
  · intro h1 h2 h3 h4
    simp [keyboardIntercept, h1, h2, h3, h4]

/-- Witness of C8: the Tab event runs `Next` on the state `main` reaches, which
moves the focus index from -1 to 0, and the event of the letter `q` leaves that
state as it is. -/
theorem keyboardIntercept_dispatch_witness :
    (keyboardIntercept sampleEnv tabEvent (main sampleEnv (some allOn)) =
      (some tabEvent,
        { main sampleEnv (some allOn) with
          FocusTracker := sampleEnv.Next (main sampleEnv (some allOn)).pkgConfig
            (main sampleEnv (some allOn)).FocusTracker })) ∧
    (keyboardIntercept sampleEnv runeEvent (main sampleEnv (some allOn)) =
      (some runeEvent, main sampleEnv (some allOn))) :=
  ⟨(keyboardIntercept_dispatch sampleEnv tabEvent (main sampleEnv (some allOn))).2.1 rfl,
   (keyboardIntercept_dispatch sampleEnv runeEvent (main sampleEnv (some allOn))).2.2.2.2
     (by decide) (by decide) (by decide) (by decide)⟩

/-- C9: for every key event, the four recognised keys included,
`keyboardIntercept` returns the event it was given and never nil. -/
theorem keyboardIntercept_returns_event (env : Env Cfg) (event : EventKey) (st : State Cfg) :
    (keyboardIntercept env event st).1 = some event := by
  unfold keyboardIntercept
  split_ifs <;> rfl

/-! ## Configuration reload -/

/-- The write-event branch assigns nothing to `FocusTracker`. -/
theorem reload_FocusTracker (env : Env Cfg) (load : LoadOutcome Cfg) (st : State Cfg) :
    (reload env load st).FocusTracker = st.FocusTracker := by
  cases load with
  | exited => rfl
  | returned cfg =>
    cases cfg with
    | none => rw [reload_nil]; rfl
    | some c => rw [reload_returned]; rfl

/-- C3 (the code at the failing input): after startup with every module on,
the Tab key moves the focus index from -1 to 0; the write event that follows,
whose load succeeds, leaves the index at 0 instead of resetting it to -1, and
the tracker still traverses the widgets of the replaced set, none of which is
in the new `Widgets`. -/
theorem reload_keeps_focus_index :
    (main sampleEnv (some allOn)).FocusTracker.Idx = -1 ∧
    (keyboardIntercept sampleEnv tabEvent (main sampleEnv (some allOn))).2.FocusTracker.Idx = 0 ∧
    (reload sampleEnv (LoadOutcome.returned (some weatherOff))
      (keyboardIntercept sampleEnv tabEvent (main sampleEnv (some allOn))).2).FocusTracker.Idx
        = 0 ∧
    (reload sampleEnv (LoadOutcome.returned (some weatherOff))
      (keyboardIntercept sampleEnv tabEvent (main sampleEnv (some allOn))).2).FocusTracker.Widgets
        = (main sampleEnv (some allOn)).Widgets ∧
    (∀ w ∈ (reload sampleEnv (LoadOutcome.returned (some weatherOff))
      (keyboardIntercept sampleEnv tabEvent
        (main sampleEnv (some allOn))).2).FocusTracker.Widgets,
      w ∉ (reload sampleEnv (LoadOutcome.returned (some weatherOff))
        (keyboardIntercept sampleEnv tabEvent (main sampleEnv (some allOn))).2).Widgets) := by
  decide

/-- C4 (as stated, refuted): from the state `main` reaches with every module
on, a reload whose load fails does not leave the process running with the
state it had.  If `wtf.LoadConfigFile` hands back nil, `Config` becomes nil
and the process ends in `buildGrid`; if it ends the process itself, the
process does not keep running either. -/
theorem reload_failed_load_not_preserved :
    (main sampleEnv (some allOn)).running = true ∧
    (reload sampleEnv (LoadOutcome.returned none) (main sampleEnv (some allOn))).Config
      ≠ (main sampleEnv (some allOn)).Config ∧
    (reload sampleEnv (LoadOutcome.returned none) (main sampleEnv (some allOn))).running
      = false ∧
    (reload sampleEnv LoadOutcome.exited (main sampleEnv (some allOn))).running = false := by
  decide

/-- C4 (amended): for every program state, no reload whose load fails keeps
the process running.  If `wtf.LoadConfigFile` ends the process, `Config`,
`Widgets` and `mainPage` are left as they were and the process no longer
runs.  If it hands back nil (`loadConfig` gets no failure result and stores
what it is given), `Config` becomes nil, `mainPage` is left as it was and the
process ends in `buildGrid`.  If it hands back a configuration, that becomes
the active `Config`, `Widgets` is replaced by the sixteen widgets newly
constructed under it, `buildGrid` returns and `mainPage` is the grid it built
from them, and the process goes on as before. -/
theorem reload_installs_load_result (env : Env Cfg) (st : State Cfg) :
    ((reload env LoadOutcome.exited st).Config = st.Config ∧
      (reload env LoadOutcome.exited st).Widgets = st.Widgets ∧
      (reload env LoadOutcome.exited st).mainPage = st.mainPage ∧
      (reload env LoadOutcome.exited st).running = false) ∧
    ((reload env (LoadOutcome.returned none) st).Config = none ∧
      (reload env (LoadOutcome.returned none) st).mainPage = st.mainPage ∧
      (reload env (LoadOutcome.returned none) st).running = false) ∧
    (∀ c : Cfg,
      (reload env (LoadOutcome.returned (some c)) st).Config = some c ∧
      (reload env (LoadOutcome.returned (some c)) st).Widgets =
        (makeWidgets env { st with Config := some c }).Widgets ∧
      (∃ built, buildGrid env (makeWidgets env { st with Config := some c }).Widgets
          (makeWidgets env { st with Config := some c }) = some built ∧
        (reload env (LoadOutcome.returned (some c)) st).mainPage = some built.1) ∧
      (reload env (LoadOutcome.returned (some c)) st).running = st.running) := by
  refine ⟨⟨rfl, rfl, rfl, rfl⟩, ?_, fun c => ?_⟩
  · rw [reload_nil]
    exact ⟨rfl, rfl, rfl⟩
  · rw [reload_returned]
    exact ⟨rfl, rfl, ⟨_, buildGrid_some env _ _ c rfl, rfl⟩, rfl⟩

/-- C5 (as stated, refuted): after startup with every module on and one
reload, 32 refresh cycles are running, not the 16 of the new Widget Set: the
cycle of the first widget of the old set is still among them although that
widget is not in the new set. -/
theorem reload_keeps_old_cycles :
    (cycles (reload sampleEnv (LoadOutcome.returned (some allOn))
      (main sampleEnv (some allOn)))).length = 32 ∧
    (reload sampleEnv (LoadOutcome.returned (some allOn))
      (main sampleEnv (some allOn))).Widgets.length = 16 ∧
    cycles (reload sampleEnv (LoadOutcome.returned (some allOn)) (main sampleEnv (some allOn)))
      ≠ (reload sampleEnv (LoadOutcome.returned (some allOn))
          (main sampleEnv (some allOn))).Widgets ∧
    sampleEnv.NewWidget Module.bamboohr (some allOn) 0 ∈ (main sampleEnv (some allOn)).Widgets ∧
    sampleEnv.NewWidget Module.bamboohr (some allOn) 0 ∈
      cycles (reload sampleEnv (LoadOutcome.returned (some allOn))
        (main sampleEnv (some allOn))) ∧
    sampleEnv.NewWidget Module.bamboohr (some allOn) 0 ∉
      (reload sampleEnv (LoadOutcome.returned (some allOn))
        (main sampleEnv (some allOn))).Widgets := by
  decide

/-- C5 (amended): a config reload stops no refresh cycle.  After a reload
whose load hands back a configuration, the running cycles are those that were
running before it, followed by one new cycle for each widget of the new Widget
Set; a reload whose load hands back nil or ends the process starts and stops
no cycle (and ends the process).  After startup under a configuration the
running cycles are those of the first Widget Set, and after `k` reloads that
each load a configuration the process is running `16 * (k + 1)` cycles. -/
theorem reload_adds_cycles (env : Env Cfg) :
    (∀ (c : Cfg) (st : State Cfg),
      cycles (reload env (LoadOutcome.returned (some c)) st) =
        cycles st ++ (reload env (LoadOutcome.returned (some c)) st).Widgets) ∧
    (∀ st : State Cfg,
      cycles (reload env (LoadOutcome.returned none) st) = cycles st ∧
      cycles (reload env LoadOutcome.exited st) = cycles st) ∧
    (∀ c : Cfg, cycles (main env (some c)) = (main env (some c)).Widgets) ∧
    (∀ (cfg : Cfg) (loads : List Cfg),
      (afterReloads env cfg loads).running = true ∧
      (cycles (afterReloads env cfg loads)).length = 16 * (loads.length + 1)) :=
  ⟨cycles_reload env, fun st => ⟨by rw [reload_nil]; rfl, rfl⟩, cycles_main env,
    fun cfg loads => ⟨afterReloads_running env cfg loads,
      cycles_afterReloads_length env cfg loads⟩⟩

/-- C6 (as stated, refuted): after startup under a configuration that
switches the `weather` module off, the list the focus tracker traverses has
all 16 widgets, the disabled weather widget included, and is not the enabled
subsequence of `Widgets`, which has 15. -/
theorem main_tracker_holds_disabled :
    (main sampleEnv (some weatherOff)).FocusTracker.Widgets
      ≠ enabled (main sampleEnv (some weatherOff)).Widgets ∧
    (main sampleEnv (some weatherOff)).FocusTracker.Widgets.length = 16 ∧
    (enabled (main sampleEnv (some weatherOff)).Widgets).length = 15 ∧
    (∃ w ∈ (main sampleEnv (some weatherOff)).FocusTracker.Widgets, w.Disabled = true) := by
  decide

/-- C6 (amended): in the state reached by startup in `main`, the focus index
is no-focus (-1) and the widget list the focus tracker traverses is the whole
active Widget Set, the global `Widgets`, enabled and disabled widgets alike
in the same order; its enabled subsequence is that of `Widgets`. -/
theorem main_tracker_holds_Widgets (env : Env Cfg) (cfg : Option Cfg) :
    (main env cfg).FocusTracker.Idx = -1 ∧
    (main env cfg).FocusTracker.Widgets = (main env cfg).Widgets ∧
    enabled (main env cfg).FocusTracker.Widgets = enabled (main env cfg).Widgets := by
  cases cfg with
  | none => rw [main_nil]; exact ⟨rfl, rfl, rfl⟩
  | some c => rw [main_eq]; exact ⟨rfl, rfl, rfl⟩

end Wtf
